import Mathlib

/-! Shallow embedding of the Bevy anisotropy example
(src/examples/3d/anisotropy.rs).

The program is a single-file demo: an app-status record (light mode,
anisotropy flag, visible scene), a handful of entities (one camera, light
entities, mesh entities carrying material handles, two scene-tagged roots,
one help-text node), and five per-frame systems
(create_material_variants, animate_light, rotate_camera, handle_input,
update_help_text).  We embed the entity state touched by those systems as a
World record and each system as a pure function World → World.

Conventions of the embedding:
 - scalars are ℚ (the code uses f32; every constant in the claims is
   exactly representable);
 - asset handles are ℕ ids into an association-list asset store, fresh ids
   handed out by a counter, matching the engine's fresh-handle guarantee;
 - the trigonometric functions used by animate_light and rotate_camera are
   taken as parameters (uninterpreted ℚ → ℚ functions), since no claim
   depends on their values;
 - a quaternion produced by look_at is modelled abstractly as the
   constructor Rotation.lookAtFrom applied to the position, target and up
   vector that determine it;
 - the Added query filter of create_material_variants is modelled by a
   justAdded flag on each mesh entity: true exactly when the
   MeshMaterial3d component was added since the last run of that system,
   cleared when the system runs, set on freshly spawned meshes;
 - deferred commands (despawn/spawn/insert/remove) are modelled by their
   net effect on the entity lists, applied at the end of the system, which
   is when Bevy applies them.
-/

namespace Aniso

/-- A 3-vector over ℚ, embedding Vec3. -/
structure Vec3 where
  x : ℚ
  y : ℚ
  z : ℚ
  deriving DecidableEq

/-- Componentwise product of two vectors, embedding Vec3 multiplication. -/
def vmul (a b : Vec3) : Vec3 :=
  ⟨a.x * b.x, a.y * b.y, a.z * b.z⟩

/-- An orientation.  The code only ever produces orientations via
Transform::look_at / looking_at (or leaves the default); we model the
quaternion abstractly by the data that determines it. -/
inductive Rotation where
  | identity
  | lookAtFrom (pos target up : Vec3)
  deriving DecidableEq

/-- Embedding of Transform: translation plus orientation. -/
structure Transform where
  translation : Vec3
  rotation : Rotation
  deriving DecidableEq

/-- Transform::default(). -/
def Transform.deflt : Transform :=
  ⟨⟨0, 0, 0⟩, .identity⟩

/-- Transform::from_translation. -/
def Transform.from_translation (v : Vec3) : Transform :=
  ⟨v, .identity⟩

/-- Transform::looking_at / look_at: keeps the translation, re-orients
toward the target with the given up vector. -/
def Transform.looking_at (t : Transform) (target up : Vec3) : Transform :=
  ⟨t.translation, .lookAtFrom t.translation target up⟩

/-- The initial position of the camera (source constant
CAMERA_INITIAL_POSITION = vec3(-0.4, 0.0, 0.0)). -/
def CAMERA_INITIAL_POSITION : Vec3 := ⟨-2/5, 0, 0⟩

/-- Vec3::ZERO. -/
def vZero : Vec3 := ⟨0, 0, 0⟩

/-- Vec3::Y. -/
def vY : Vec3 := ⟨0, 1, 0⟩

/-- Which type of light is in use (source enum LightMode). -/
inductive LightMode where
  | Directional
  | Point
  | EnvironmentMap
  deriving DecidableEq

/-- Which mesh is visible (source enum Scene). -/
inductive Scene where
  | BarnLamp
  | Sphere
  deriving DecidableEq

/-- Scene::next from the source: BarnLamp → Sphere → BarnLamp. -/
def Scene.next : Scene → Scene
  | .BarnLamp => .Sphere
  | .Sphere => .BarnLamp

/-- The Display impl for Scene from the source. -/
def Scene.display : Scene → String
  | .BarnLamp => "Barn Lamp"
  | .Sphere => "Sphere"

/-- Visibility component values used by the program. -/
inductive Visibility where
  | Inherited
  | Hidden
  | Visible
  deriving DecidableEq

/-- The app-status resource (source struct AppStatus). -/
structure AppStatus where
  light_mode : LightMode
  anisotropy_enabled : Bool
  visible_scene : Scene
  deriving DecidableEq

/-- Default::default() for AppStatus from the source impl:
Directional light, anisotropy enabled, barn lamp visible. -/
def defaultAppStatus : AppStatus :=
  ⟨.Directional, true, .BarnLamp⟩

/-- Embedding of StandardMaterial, keeping the fields the program touches
(the three anisotropy fields) plus base_color standing for the remaining
fields copied by the struct-update expression. -/
structure StandardMaterial where
  base_color : String
  anisotropy_strength : ℚ
  anisotropy_rotation : ℚ
  anisotropy_texture : Option String
  deriving DecidableEq

/-- The material-variants component (source struct MaterialVariants):
handles of the anisotropic (original) and isotropic (derived) materials. -/
structure MaterialVariants where
  anisotropic : ℕ
  isotropic : ℕ
  deriving DecidableEq

/-- The material asset store: association list from handle ids to
materials, newest first, plus a fresh-id counter. -/
structure Assets where
  store : List (ℕ × StandardMaterial)
  nextId : ℕ
  deriving DecidableEq

/-- Assets::get — look a handle up, None while the asset is not loaded. -/
def Assets.get (a : Assets) (h : ℕ) : Option StandardMaterial :=
  (a.store.find? (fun p => p.1 == h)).map (fun p => p.2)

/-- Assets::add — insert a material under a fresh handle id. -/
def Assets.add (a : Assets) (m : StandardMaterial) : ℕ × Assets :=
  (a.nextId, ⟨(a.nextId, m) :: a.store, a.nextId + 1⟩)

/-- An asynchronous asset load completing: the material for an
already-reserved handle id becomes available in the store. -/
def Assets.insertLoaded (a : Assets) (h : ℕ) (m : StandardMaterial) : Assets :=
  ⟨(h, m) :: a.store, max a.nextId (h + 1)⟩

/-- Skybox component (brightness and image path, as inserted by
add_skybox_and_environment_map). -/
structure Skybox where
  brightness : ℚ
  image : String
  deriving DecidableEq

/-- EnvironmentMapLight component, as inserted by
add_skybox_and_environment_map. -/
structure EnvironmentMapLight where
  diffuse_map : String
  specular_map : String
  intensity : ℚ
  deriving DecidableEq

/-- A camera entity: optional Skybox and EnvironmentMapLight components
plus its Transform. -/
structure CameraEnt where
  skybox : Option Skybox
  envMapLight : Option EnvironmentMapLight
  transform : Transform
  deriving DecidableEq

/-- The light component carried by a light entity. -/
inductive LightKind where
  | directional (color : String) (illuminance : ℚ)
  | point (color : String) (intensity : ℚ)
  deriving DecidableEq

/-- A light entity: its light component and its Transform. -/
structure LightEnt where
  kind : LightKind
  transform : Transform
  deriving DecidableEq

/-- A mesh entity as seen by the material systems: its
MeshMaterial3d handle, its optional MaterialVariants component, and
whether the material component counts as Added for
create_material_variants (see the module comment). -/
structure MeshEnt where
  material : ℕ
  variants : Option MaterialVariants
  justAdded : Bool
  deriving DecidableEq

/-- A scene-tagged entity: its Visibility and its Scene tag. -/
structure SceneEnt where
  visibility : Visibility
  scene : Scene
  deriving DecidableEq

/-- The whole program state the systems touch. -/
structure World where
  app : AppStatus
  cameras : List CameraEnt
  lights : List LightEnt
  meshes : List MeshEnt
  scenes : List SceneEnt
  materials : Assets
  texts : List String
  time : ℚ
  stopwatch : ℚ
  deriving DecidableEq

/-- The keys handle_input reads on a frame: whether each of Space, Enter
and Q was just pressed. -/
structure Keys where
  space : Bool
  enter : Bool
  q : Bool
  deriving DecidableEq

/-- No key pressed. -/
def noKeys : Keys := ⟨false, false, false⟩

/-- Only Enter pressed. -/
def kEnter : Keys := ⟨false, true, false⟩

/-- spawn_directional_light: a white directional light, illuminance 3000,
default transform (Transform is a required component filled by default). -/
def spawn_directional_light : LightEnt :=
  ⟨.directional "white" 3000, Transform.deflt⟩

/-- spawn_point_light: a white point light, intensity 200000. -/
def spawn_point_light : LightEnt :=
  ⟨.point "white" 200000, Transform.deflt⟩

/-- The Skybox value inserted by add_skybox_and_environment_map. -/
def theSkybox : Skybox :=
  ⟨5000, "environment_maps/pisa_specular_rgb9e5_zstd.ktx2"⟩

/-- The EnvironmentMapLight value inserted by
add_skybox_and_environment_map. -/
def theEnvMapLight : EnvironmentMapLight :=
  ⟨"environment_maps/pisa_diffuse_rgb9e5_zstd.ktx2",
   "environment_maps/pisa_specular_rgb9e5_zstd.ktx2", 2500⟩

/-- add_skybox_and_environment_map applied to one camera entity. -/
def add_skybox_and_environment_map (c : CameraEnt) : CameraEnt :=
  { c with skybox := some theSkybox, envMapLight := some theEnvMapLight }

/-- The Space branch of handle_input: advance the light mode, despawn the
previous mode's light entities (or remove the camera's Skybox and
EnvironmentMapLight components) and spawn the new mode's set. -/
def handleSpace (w : World) : World :=
  match w.app.light_mode with
  | .Directional =>
      { w with app := { w.app with light_mode := .Point },
               lights := [spawn_point_light] }
  | .Point =>
      { w with app := { w.app with light_mode := .EnvironmentMap },
               lights := [],
               cameras := w.cameras.map add_skybox_and_environment_map }
  | .EnvironmentMap =>
      { w with app := { w.app with light_mode := .Directional },
               cameras := w.cameras.map
                 (fun c => { c with skybox := none, envMapLight := none }),
               lights := w.lights ++ [spawn_directional_light] }

/-- The material-handle rewrite the Enter branch applies to one mesh of
the meshes query (the query requires a MaterialVariants component, so a
mesh without one is untouched). -/
def swapMaterial (enabled : Bool) (m : MeshEnt) : MeshEnt :=
  match m.variants with
  | none => m
  | some v =>
      { m with material := if enabled then v.anisotropic else v.isotropic }

/-- The Enter branch of handle_input: flip the anisotropy flag and point
every tracked mesh at the variant selected by the new flag. -/
def handleEnter (w : World) : World :=
  let enabled := !w.app.anisotropy_enabled
  { w with app := { w.app with anisotropy_enabled := enabled },
           meshes := w.meshes.map (swapMaterial enabled) }

/-- The Q branch of handle_input: advance the visible scene and set every
scene-tagged entity's visibility accordingly. -/
def handleQ (w : World) : World :=
  let vs := w.app.visible_scene.next
  { w with app := { w.app with visible_scene := vs },
           scenes := w.scenes.map (fun s =>
             { s with visibility :=
                 if s.scene = vs then Visibility.Inherited
                 else Visibility.Hidden }) }

/-- handle_input: the three key branches in source order. -/
def handle_input (k : Keys) (w : World) : World :=
  let w1 := if k.space then handleSpace w else w
  let w2 := if k.enter then handleEnter w1 else w1
  if k.q then handleQ w2 else w2

/-- The isotropic copy of a material: anisotropy texture removed, strength
and rotation zeroed, every other field kept by the struct-update expression. -/
def isotropicCopy (mat : StandardMaterial) : StandardMaterial :=
  { mat with anisotropy_texture := none,
             anisotropy_strength := 0,
             anisotropy_rotation := 0 }

/-- The loop body of create_material_variants over the mesh list,
threading the material store.  A mesh matches the query only if its
material component was added since the system's last run and it has no
MaterialVariants yet; a matching mesh whose material is not in the store
is skipped by the let-else continue.  Every mesh's justAdded flag is
cleared: after this run the addition is no longer new to this system. -/
def cmvGo (mats : Assets) : List MeshEnt → Assets × List MeshEnt
  | [] => (mats, [])
  | m :: rest =>
    if m.justAdded ∧ m.variants = none then
      match mats.get m.material with
      | none =>
          let r := cmvGo mats rest
          (r.1, { m with justAdded := false } :: r.2)
      | some mat =>
          let added := mats.add (isotropicCopy mat)
          let r := cmvGo added.2 rest
          (r.1, { m with justAdded := false,
                         variants := some ⟨m.material, added.1⟩ } :: r.2)
    else
      let r := cmvGo mats rest
      (r.1, { m with justAdded := false } :: r.2)

/-- create_material_variants as a system on the world. -/
def create_material_variants (w : World) : World :=
  let r := cmvGo w.materials w.meshes
  { w with materials := r.1, meshes := r.2 }

/-- animate_light: every frame, set each directional/point light's
translation to vec3(cos now, 1, sin now) * vec3(3, 4, 3) and re-orient it
toward the origin; now is the total elapsed time. -/
def animate_light (cosF sinF : ℚ → ℚ) (w : World) : World :=
  let now := w.time
  { w with lights := w.lights.map (fun l =>
      let t1 := { l.transform with
                    translation := vmul ⟨cosF now, 1, sinF now⟩ ⟨3, 4, 3⟩ }
      { l with transform := t1.looking_at vZero vY }) }

/-- Quat::from_rotation_y(θ).mul_vec3(v), with the trigonometric functions
as parameters. -/
def rotYMulVec (cosF sinF : ℚ → ℚ) (θ : ℚ) (v : Vec3) : Vec3 :=
  ⟨cosF θ * v.x + sinF θ * v.z, v.y, -(sinF θ) * v.x + cosF θ * v.z⟩

/-- rotate_camera: tick the local stopwatch only while the environment map
is the active light mode, then place the camera on the circle of the
initial position rotated about Y by the stopwatch's elapsed time, looking
at the origin. -/
def rotate_camera (cosF sinF : ℚ → ℚ) (delta : ℚ) (w : World) : World :=
  let sw :=
    if w.app.light_mode = LightMode.EnvironmentMap then w.stopwatch + delta
    else w.stopwatch
  let camT :=
    (Transform.from_translation
      (rotYMulVec cosF sinF sw CAMERA_INITIAL_POSITION)).looking_at vZero vY
  { w with stopwatch := sw,
           cameras := w.cameras.map (fun c => { c with transform := camT }) }

/-- AppStatus::create_help_text: the three-line help string. -/
def create_help_text (s : AppStatus) : String :=
  let material_variant_help_text :=
    if s.anisotropy_enabled then "Press Enter to disable anisotropy"
    else "Press Enter to enable anisotropy"
  let light_help_text :=
    match s.light_mode with
    | .Directional => "Press Space to switch to a point light"
    | .Point => "Press Space to switch to an environment map"
    | .EnvironmentMap => "Press Space to switch to a directional light"
  let mesh_help_text := "Press Q to change to " ++ s.visible_scene.next.display
  material_variant_help_text ++ "\n" ++ light_help_text ++ "\n" ++
    mesh_help_text

/-- update_help_text: overwrite every Text entity with the help text for
the current app status. -/
def update_help_text (w : World) : World :=
  { w with texts := w.texts.map (fun _ => create_help_text w.app) }

/-- The material the setup system builds for the sphere (gray base color,
anisotropy rotation 0.5, strength 1, other fields default). -/
def sphereMaterial : StandardMaterial :=
  ⟨"GRAY_300", 1, 1/2, none⟩

/-- The world right after the Startup setup system: one camera at the
initial position looking at the origin, one directional light, the barn
lamp scene root (default Inherited visibility) and the hidden sphere, the
sphere's mesh entity with its freshly added material, and the help text.
The barn lamp's own meshes arrive later from the async glTF load. -/
def setupWorld : World :=
  let a0 : Assets := ⟨[], 0⟩
  let r := a0.add sphereMaterial
  { app := defaultAppStatus,
    cameras := [⟨none, none,
      (Transform.from_translation CAMERA_INITIAL_POSITION).looking_at vZero vY⟩],
    lights := [spawn_directional_light],
    meshes := [⟨r.1, none, true⟩],
    scenes := [⟨.Inherited, .BarnLamp⟩, ⟨.Hidden, .Sphere⟩],
    materials := r.2,
    texts := [create_help_text defaultAppStatus],
    time := 0,
    stopwatch := 0 }

/-- The outside events of one frame: the keys just pressed, the frame
delta, asset loads that completed (handle id and material), and mesh
entities newly spawned by the scene spawner. -/
structure FrameInput where
  keys : Keys
  delta : ℚ
  loads : List (ℕ × StandardMaterial)
  spawnedMeshes : List MeshEnt

/-- What happened since the last frame, landing in the world before the
Update systems run: time advances, completed asset loads reach the store,
and newly spawned mesh entities appear (counting as Added for the variant
system). -/
def absorbInputs (inp : FrameInput) (w : World) : World :=
  { w with
    time := w.time + inp.delta,
    materials := inp.loads.foldl (fun a p => a.insertLoaded p.1 p.2) w.materials,
    meshes := w.meshes ++ inp.spawnedMeshes }

/-- One Update-schedule frame: the outside events land, then the systems
run — create_material_variants, animate_light, rotate_camera, and the
chained pair handle_input, update_help_text. -/
def frame (cosF sinF : ℚ → ℚ) (inp : FrameInput) (w : World) : World :=
  update_help_text (handle_input inp.keys
    (rotate_camera cosF sinF inp.delta
      (animate_light cosF sinF
        (create_material_variants (absorbInputs inp w)))))

/-- A run of the program: the setup world driven through a list of frame
inputs. -/
def run (cosF sinF : ℚ → ℚ) (inputs : List FrameInput) : World :=
  inputs.foldl (fun w inp => frame cosF sinF inp w) setupWorld

/-- Modelled from the spec: the light-mode cycle
Directional → Point → EnvironmentMap → Directional that a Space press is
said to advance by one step. -/
def LightMode.cycleNext : LightMode → LightMode
  | .Directional => .Point
  | .Point => .EnvironmentMap
  | .EnvironmentMap => .Directional

/-- A tracked mesh is in sync with the anisotropy flag when its active
material handle is the variant the flag selects. -/
def meshInSync (enabled : Bool) (m : MeshEnt) : Bool :=
  match m.variants with
  | none => true
  | some v =>
      m.material == (if enabled then v.anisotropic else v.isotropic)

/-- The scene-visibility invariant: every entity tagged with the currently
visible scene is not Hidden, and every entity tagged with the other scene
value is Hidden. -/
def sceneInv (w : World) : Prop :=
  ∀ e ∈ w.scenes,
    (e.scene = w.app.visible_scene → e.visibility ≠ Visibility.Hidden) ∧
    (e.scene ≠ w.app.visible_scene → e.visibility = Visibility.Hidden)

/-- The light/environment set each light mode is supposed to have: the
kinds of the light entities, and the (Skybox, EnvironmentMapLight)
component pair of the single camera. -/
def lightSetOf : LightMode → List LightKind × (Option Skybox × Option EnvironmentMapLight)
  | .Directional => ([spawn_directional_light.kind], (none, none))
  | .Point => ([spawn_point_light.kind], (none, none))
  | .EnvironmentMap => ([], (some theSkybox, some theEnvMapLight))

/-- The light-set invariant: the active light mode determines that exactly
one light/environment set exists — a single directional light, a single
point light, or (on the single camera) the skybox/environment-map pair,
with no leftovers from the other modes. -/
def lightInv (w : World) : Prop :=
  w.lights.map (fun l => l.kind) = (lightSetOf w.app.light_mode).1 ∧
  w.cameras.map (fun c => (c.skybox, c.envMapLight)) =
    [(lightSetOf w.app.light_mode).2]

/-- Split a string into its newline-separated lines (the lines of the
help-text overlay). -/
def splitLinesGo : List Char → List Char → List String
  | [], acc => [String.mk acc.reverse]
  | c :: rest, acc =>
    if c = '\n' then String.mk acc.reverse :: splitLinesGo rest []
    else splitLinesGo rest (c :: acc)

/-- The newline-separated lines of a string. -/
def splitLines (s : String) : List String := splitLinesGo s.data []

/-- A frame with no outside events and no keys. -/
def idleFrame : FrameInput := ⟨noKeys, 0, [], []⟩

/-- A frame in which only Enter is pressed. -/
def enterFrame : FrameInput := ⟨kEnter, 0, [], []⟩

/-- A stand-in for one of the barn lamp's glTF materials. -/
def barnMaterial : StandardMaterial :=
  ⟨"barn", 1, 0, some "barn_anisotropy_texture"⟩

/-- A frame on which the scene spawner delivers a barn-lamp mesh entity
whose material (handle id 100) finished loading on the same frame. -/
def barnFrame : FrameInput := ⟨noKeys, 0, [(100, barnMaterial)], [⟨100, none, true⟩]⟩

/-- A reachable world in which a tracked mesh is out of sync with the
anisotropy flag: the user pressed Enter (anisotropy off) before the barn
lamp's meshes had spawned, and the barn mesh then appeared still pointing
at its anisotropic glTF material. -/
def outOfSyncWorld : World :=
  run (fun _ => 0) (fun _ => 0) [enterFrame, barnFrame]

/-- A frame on which a mesh entity spawns whose material (handle id 7) has
not finished loading. -/
def slowMeshFrame : FrameInput := ⟨noKeys, 0, [], [⟨7, none, true⟩]⟩

/-- The material for handle id 7, and the frame on which its load
completes (one frame after the mesh spawned). -/
def slowMaterial : StandardMaterial := ⟨"slow", 1, 0, none⟩

/-- The frame delivering the late material for handle id 7. -/
def slowLoadFrame : FrameInput := ⟨noKeys, 0, [(7, slowMaterial)], []⟩

/-- A minimal world holding only a just-appeared mesh whose material
(handle id 7) is not yet in the store. -/
def slowWorld : World :=
  { app := defaultAppStatus, cameras := [], lights := [],
    meshes := [⟨7, none, true⟩], scenes := [], materials := ⟨[], 0⟩,
    texts := [], time := 0, stopwatch := 0 }

lemma handleSpace_light_mode (w : World) :
    (handleSpace w).app.light_mode = w.app.light_mode.cycleNext := by
  cases hm : w.app.light_mode <;>
    simp [handleSpace, hm, LightMode.cycleNext]

lemma handleEnter_light_mode (w : World) :
    (handleEnter w).app.light_mode = w.app.light_mode := rfl

lemma handleQ_light_mode (w : World) :
    (handleQ w).app.light_mode = w.app.light_mode := rfl

/-- C1: a Space press advances the light mode exactly one step along the
cycle Directional → Point → EnvironmentMap → Directional, and no other
key changes the light mode. -/
theorem handle_input_light_mode (k : Keys) (w : World) :
    (handle_input k w).app.light_mode =
      if k.space then w.app.light_mode.cycleNext else w.app.light_mode := by
  cases hs : k.space <;> cases he : k.enter <;> cases hq : k.q <;>
    simp [handle_input, hs, he, hq, handleSpace_light_mode,
      handleEnter_light_mode, handleQ_light_mode]

/-- C10: on a frame on which none of Space, Enter and Q was just pressed,
handle_input leaves the whole world unchanged. -/
theorem handle_input_no_keys (k : Keys) (w : World)
    (hs : k.space = false) (he : k.enter = false) (hq : k.q = false) :
    handle_input k w = w := by
  simp [handle_input, hs, he, hq]

/-- Witness for C10 at the setup world with no key pressed. -/
theorem handle_input_no_keys_witness :
    noKeys.space = false ∧ noKeys.enter = false ∧ noKeys.q = false ∧
    handle_input noKeys setupWorld = setupWorld :=
  ⟨rfl, rfl, rfl, handle_input_no_keys noKeys setupWorld rfl rfl rfl⟩

/-- C7: rotate_camera ticks its stopwatch by the frame delta exactly when
the environment-map light mode is active; on every other frame the
stopwatch's elapsed time is unchanged. -/
theorem rotate_camera_stopwatch (cosF sinF : ℚ → ℚ) (delta : ℚ) (w : World) :
    (w.app.light_mode ≠ LightMode.EnvironmentMap →
      (rotate_camera cosF sinF delta w).stopwatch = w.stopwatch) ∧
    (w.app.light_mode = LightMode.EnvironmentMap →
      (rotate_camera cosF sinF delta w).stopwatch = w.stopwatch + delta) := by
  constructor <;> intro h <;> simp [rotate_camera, h]

/-- Witness for C7: at the setup world (directional light mode) the
stopwatch is unchanged by rotate_camera. -/
theorem rotate_camera_stopwatch_witness :
    setupWorld.app.light_mode ≠ LightMode.EnvironmentMap ∧
    (rotate_camera (fun _ => 0) (fun _ => 0) 1 setupWorld).stopwatch
      = setupWorld.stopwatch :=
  ⟨by decide,
   (rotate_camera_stopwatch (fun _ => 0) (fun _ => 0) 1 setupWorld).1 (by decide)⟩

/-- C9: every frame, animate_light moves every directional/point light to
(cos t, 1, sin t) multiplied componentwise by (3, 4, 3) — that is,
(3 cos t, 4, 3 sin t) — where t is the total elapsed time, and re-orients
the light to look at the origin; nothing else about a light changes. -/
theorem animate_light_places_lights (cosF sinF : ℚ → ℚ) (w : World) :
    (animate_light cosF sinF w).lights = w.lights.map (fun l =>
      { l with transform :=
          ⟨vmul ⟨cosF w.time, 1, sinF w.time⟩ ⟨3, 4, 3⟩,
           Rotation.lookAtFrom (vmul ⟨cosF w.time, 1, sinF w.time⟩ ⟨3, 4, 3⟩)
             vZero vY⟩ }) ∧
    vmul ⟨cosF w.time, 1, sinF w.time⟩ ⟨3, 4, 3⟩
      = ⟨3 * cosF w.time, 4, 3 * sinF w.time⟩ := by
  constructor
  · rfl
  · simp [vmul]
    constructor <;> ring

lemma create_help_text_third (s : AppStatus) :
    (splitLines (create_help_text s)).get? 2 =
      some ("Press Q to change to " ++ s.visible_scene.next.display) := by
  obtain ⟨lm, ae, vs⟩ := s
  cases lm <;> cases ae <;> cases vs <;> decide

lemma scene_next_ne (s : Scene) : s.next ≠ s := by
  cases s <;> decide

/-- C6: for every app status, the third line of the help text names the
scene that is not currently visible (the next of the visible scene), so
after update_help_text every overlay text's third line names the scene
not currently visible. -/
theorem help_text_third_line (w : World) :
    ∀ t ∈ (update_help_text w).texts,
      (splitLines t).get? 2 =
        some ("Press Q to change to " ++ w.app.visible_scene.next.display) ∧
      w.app.visible_scene.next ≠ w.app.visible_scene := by
  intro t ht
  simp only [update_help_text, List.mem_map] at ht
  obtain ⟨a, -, rfl⟩ := ht
  exact ⟨create_help_text_third w.app, scene_next_ne _⟩

/-- Witness for C6 at the setup world: the overlay's third line offers to
change to the Sphere while the Barn Lamp is visible. -/
theorem help_text_third_line_witness :
    create_help_text setupWorld.app ∈ (update_help_text setupWorld).texts ∧
    ((splitLines (create_help_text setupWorld.app)).get? 2 =
        some ("Press Q to change to " ++ setupWorld.app.visible_scene.next.display) ∧
      setupWorld.app.visible_scene.next ≠ setupWorld.app.visible_scene) := by
  have hm : create_help_text setupWorld.app ∈ (update_help_text setupWorld).texts := by
    simp [update_help_text, setupWorld]
  exact ⟨hm, help_text_third_line setupWorld _ hm⟩

lemma sceneInv_of_eq {w1 w2 : World} (hs : w2.scenes = w1.scenes)
    (hv : w2.app.visible_scene = w1.app.visible_scene)
    (h : sceneInv w1) : sceneInv w2 := by
  intro e he
  rw [hs] at he
  rw [hv]
  exact h e he

lemma sceneInv_handleQ (w : World) : sceneInv (handleQ w) := by
  intro e he
  simp only [handleQ, List.mem_map] at he
  obtain ⟨a, -, rfl⟩ := he
  by_cases hsc : a.scene = w.app.visible_scene.next <;>
    simp [handleQ, hsc]

lemma handleSpace_scenes (w : World) : (handleSpace w).scenes = w.scenes := by
  cases hm : w.app.light_mode <;> simp [handleSpace, hm]

lemma handleSpace_visible_scene (w : World) :
    (handleSpace w).app.visible_scene = w.app.visible_scene := by
  cases hm : w.app.light_mode <;> simp [handleSpace, hm]

lemma sceneInv_handle_input (k : Keys) {w : World} (h : sceneInv w) :
    sceneInv (handle_input k w) := by
  have h1 : sceneInv (if k.space then handleSpace w else w) := by
    cases hs : k.space
    · simpa using h
    · simp only [if_pos rfl, ite_true]
      exact sceneInv_of_eq (handleSpace_scenes w) (handleSpace_visible_scene w) h
  have h2 : sceneInv (if k.enter then handleEnter (if k.space then handleSpace w else w)
      else (if k.space then handleSpace w else w)) := by
    cases he : k.enter
    · simpa using h1
    · simp only [ite_true]
      exact sceneInv_of_eq rfl rfl h1
  cases hq : k.q
  · simpa [handle_input, hq] using h2
  · simp only [handle_input, hq, ite_true]
    exact sceneInv_handleQ _

lemma sceneInv_frame (cosF sinF : ℚ → ℚ) (inp : FrameInput) {w : World}
    (h : sceneInv w) : sceneInv (frame cosF sinF inp w) :=
  sceneInv_of_eq rfl rfl
    (sceneInv_handle_input inp.keys (sceneInv_of_eq rfl rfl h))

/-- C4: in every reachable state — the setup world driven through any
sequence of frames — the entities tagged with the currently visible scene
have a non-Hidden visibility and the entities tagged with the other scene
value are Hidden. -/
theorem reachable_scene_visibility (cosF sinF : ℚ → ℚ)
    (inputs : List FrameInput) : sceneInv (run cosF sinF inputs) := by
  have base : sceneInv setupWorld := by
    intro e he
    simp only [setupWorld, List.mem_cons, List.not_mem_nil, or_false] at he
    rcases he with rfl | rfl <;> decide
  unfold run
  generalize setupWorld = w at base ⊢
  induction inputs generalizing w with
  | nil => exact base
  | cons i is ih => exact ih _ (sceneInv_frame cosF sinF i base)

lemma lightInv_of_eq {w1 w2 : World}
    (hl : w2.lights.map (fun l => l.kind) = w1.lights.map (fun l => l.kind))
    (hc : w2.cameras.map (fun c => (c.skybox, c.envMapLight))
        = w1.cameras.map (fun c => (c.skybox, c.envMapLight)))
    (hm : w2.app.light_mode = w1.app.light_mode)
    (h : lightInv w1) : lightInv w2 := by
  unfold lightInv at h ⊢
  rw [hl, hc, hm]
  exact h

lemma animate_light_kinds (cosF sinF : ℚ → ℚ) (w : World) :
    (animate_light cosF sinF w).lights.map (fun l => l.kind)
      = w.lights.map (fun l => l.kind) := by
  simp only [animate_light, List.map_map]
  rfl

lemma rotate_camera_cams (cosF sinF : ℚ → ℚ) (delta : ℚ) (w : World) :
    (rotate_camera cosF sinF delta w).cameras.map
        (fun c => (c.skybox, c.envMapLight))
      = w.cameras.map (fun c => (c.skybox, c.envMapLight)) := by
  simp only [rotate_camera, List.map_map]
  rfl

lemma lightInv_handleSpace {w : World} (h : lightInv w) :
    lightInv (handleSpace w) := by
  obtain ⟨hl, hc⟩ := h
  unfold lightInv
  cases hm : w.app.light_mode
  case Directional =>
    rw [hm] at hl hc
    simp only [handleSpace, hm]
    simp only [lightSetOf] at hc ⊢
    exact ⟨rfl, hc⟩
  case Point =>
    rw [hm] at hl hc
    simp only [handleSpace, hm]
    simp only [lightSetOf] at hc ⊢
    refine ⟨rfl, ?_⟩
    cases hcam : w.cameras with
    | nil => rw [hcam] at hc; simp at hc
    | cons c cs =>
      rw [hcam] at hc
      simp only [List.map_cons, List.cons.injEq, Prod.mk.injEq] at hc
      obtain ⟨-, hnil⟩ := hc
      have hcs : cs = [] := by
        cases cs with
        | nil => rfl
        | cons d ds => simp at hnil
      subst hcs
      simp [add_skybox_and_environment_map]
  case EnvironmentMap =>
    rw [hm] at hl hc
    simp only [handleSpace, hm]
    simp only [lightSetOf] at hl hc ⊢
    refine ⟨?_, ?_⟩
    · simp [hl]
    · cases hcam : w.cameras with
      | nil => rw [hcam] at hc; simp at hc
      | cons c cs =>
        rw [hcam] at hc
        simp only [List.map_cons, List.cons.injEq, Prod.mk.injEq] at hc
        obtain ⟨-, hnil⟩ := hc
        have hcs : cs = [] := by
          cases cs with
          | nil => rfl
          | cons d ds => simp at hnil
        subst hcs
        simp

lemma lightInv_handle_input (k : Keys) {w : World} (h : lightInv w) :
    lightInv (handle_input k w) := by
  have h1 : lightInv (if k.space then handleSpace w else w) := by
    cases hs : k.space
    · simpa using h
    · simp only [ite_true]
      exact lightInv_handleSpace h
  have h2 : lightInv (if k.enter then handleEnter (if k.space then handleSpace w else w)
      else (if k.space then handleSpace w else w)) := by
    cases he : k.enter
    · simpa using h1
    · simp only [ite_true]
      exact lightInv_of_eq rfl rfl rfl h1
  cases hq : k.q
  · simpa [handle_input, hq] using h2
  · simp only [handle_input, hq, ite_true]
    exact lightInv_of_eq rfl rfl rfl h2

lemma lightInv_frame (cosF sinF : ℚ → ℚ) (inp : FrameInput) {w : World}
    (h : lightInv w) : lightInv (frame cosF sinF inp w) := by
  have h0 : lightInv (create_material_variants (absorbInputs inp w)) :=
    lightInv_of_eq rfl rfl rfl h
  have h1 : lightInv
      (animate_light cosF sinF (create_material_variants (absorbInputs inp w))) :=
    lightInv_of_eq (animate_light_kinds cosF sinF _) rfl rfl h0
  have h2 : lightInv (rotate_camera cosF sinF inp.delta
      (animate_light cosF sinF (create_material_variants (absorbInputs inp w)))) := by
    refine lightInv_of_eq ?_ (rotate_camera_cams cosF sinF inp.delta _) ?_ h1 <;> rfl
  unfold frame
  exact lightInv_of_eq rfl rfl rfl (lightInv_handle_input inp.keys h2)

/-- C5: in every reachable state — the setup world driven through any
sequence of frames, so in particular immediately after each Space-key
light-mode transition — exactly one light/environment set exists: the set
belonging to the active light mode, with the previous mode's lights (or
the camera's Skybox and EnvironmentMapLight components) gone. -/
theorem reachable_light_set (cosF sinF : ℚ → ℚ)
    (inputs : List FrameInput) : lightInv (run cosF sinF inputs) := by
  have base : lightInv setupWorld := by
    constructor <;> decide
  unfold run
  generalize setupWorld = w at base ⊢
  induction inputs generalizing w with
  | nil => exact base
  | cons i is ih => exact ih _ (lightInv_frame cosF sinF i base)

lemma swap_restore (e : Bool) (m : MeshEnt) (hm : meshInSync e m = true) :
    swapMaterial e (swapMaterial (!e) m) = m := by
  obtain ⟨mat, var, ja⟩ := m
  cases var with
  | none => rfl
  | some v =>
    simp only [meshInSync, beq_iff_eq] at hm
    simp [swapMaterial, hm]

lemma map_swap_restore (e : Bool) (ms : List MeshEnt)
    (h : ∀ m ∈ ms, meshInSync e m = true) :
    (ms.map (swapMaterial (!e))).map (swapMaterial e) = ms := by
  induction ms with
  | nil => rfl
  | cons m rest ih =>
    simp only [List.map_cons, List.cons.injEq]
    exact ⟨swap_restore e m (h m (by simp)),
           ih (fun x hx => h x (by simp [hx]))⟩

/-- C3 (amended): for every world in which each tracked mesh's active
material handle agrees with the anisotropy flag (the anisotropic variant
when enabled, the isotropic one when disabled), pressing Enter twice
restores the whole world — every mesh's material handle and the
anisotropy flag included. -/
theorem enter_double_toggle (w : World)
    (h : ∀ m ∈ w.meshes, meshInSync w.app.anisotropy_enabled m = true) :
    handle_input kEnter (handle_input kEnter w) = w := by
  show handleEnter (handleEnter w) = w
  obtain ⟨app, cams, lts, ms, scs, mats, txts, tm, sw⟩ := w
  obtain ⟨lm, ae, vs⟩ := app
  simp only [handleEnter, Bool.not_not]
  rw [map_swap_restore ae ms h]

/-- Witness for C3's amended theorem at the setup world (whose sole mesh
has no MaterialVariants yet, hence is vacuously in sync). -/
theorem enter_double_toggle_witness :
    (∀ m ∈ setupWorld.meshes,
        meshInSync setupWorld.app.anisotropy_enabled m = true) ∧
    handle_input kEnter (handle_input kEnter setupWorld) = setupWorld :=
  ⟨by decide, enter_double_toggle setupWorld (by decide)⟩

/-- C3 counterexample: in the reachable out-of-sync world (Enter pressed
before the barn mesh appeared), the barn mesh's material handle is 100
before a double Enter toggle and 101 after it, so two toggles do not
restore every tracked mesh's material handle. -/
theorem enter_double_toggle_counterexample :
    outOfSyncWorld.app.anisotropy_enabled = false ∧
    outOfSyncWorld.meshes.map (fun m => m.material) = [1, 100] ∧
    (frame (fun _ => 0) (fun _ => 0) enterFrame
        (frame (fun _ => 0) (fun _ => 0) enterFrame
          outOfSyncWorld)).meshes.map (fun m => m.material) = [1, 101] ∧
    (frame (fun _ => 0) (fun _ => 0) enterFrame
        (frame (fun _ => 0) (fun _ => 0) enterFrame
          outOfSyncWorld)).meshes.map (fun m => m.material)
      ≠ outOfSyncWorld.meshes.map (fun m => m.material) := by
  refine ⟨?_, ?_, ?_, ?_⟩ <;> decide

lemma meshEnt_clear_old {m : MeshEnt} (h : m.justAdded = false) :
    { m with justAdded := false } = m := by
  obtain ⟨a, b, c⟩ := m
  cases c
  · rfl
  · simp at h

lemma cmvGo_all_old (mats : Assets) (ms : List MeshEnt)
    (h : ∀ m ∈ ms, m.justAdded = false) : cmvGo mats ms = (mats, ms) := by
  induction ms with
  | nil => rfl
  | cons m rest ih =>
    have hm : m.justAdded = false := h m (by simp)
    simp only [cmvGo, hm, Bool.false_eq_true, false_and, if_false,
      ih (fun x hx => h x (by simp [hx])), meshEnt_clear_old hm]

lemma cmv_all_old {w : World} (h : ∀ m ∈ w.meshes, m.justAdded = false) :
    create_material_variants w = w := by
  unfold create_material_variants
  rw [cmvGo_all_old w.materials w.meshes h]

/-- C2 counterexample, a reachable trace: a mesh (material handle 7)
spawns on a frame on which its material has not loaded; the material
arrives on the next frame, yet neither that frame's run of
create_material_variants nor any later one attaches MaterialVariants —
the Added filter means the skipped mesh is never re-examined. -/
theorem create_material_variants_no_retry :
    (run (fun _ => 0) (fun _ => 0) [slowMeshFrame, slowLoadFrame]).materials.get 7
        = some slowMaterial ∧
    (run (fun _ => 0) (fun _ => 0) [slowMeshFrame, slowLoadFrame]).meshes.map
        (fun m => m.variants) = [some ⟨0, 1⟩, none] ∧
    (run (fun _ => 0) (fun _ => 0)
        [slowMeshFrame, slowLoadFrame, idleFrame]).meshes.map
        (fun m => m.variants) = [some ⟨0, 1⟩, none] := by
  refine ⟨?_, ?_, ?_⟩ <;> decide

/-- C2 (amended): a mesh whose material asset is not yet loaded when the
mesh first appears is silently skipped on that frame (no MaterialVariants,
no change to the store), and — because the query only matches meshes whose
material component was just added — it is never re-attempted: once its
justAdded flag is cleared, create_material_variants leaves the world
unchanged no matter what later arrives in the material store. -/
theorem create_material_variants_skip_no_retry (w : World) (m : MeshEnt)
    (hm : w.meshes = [m]) (ha : m.justAdded = true) (hv : m.variants = none)
    (hg : w.materials.get m.material = none) :
    (create_material_variants w).meshes = [{ m with justAdded := false }] ∧
    (create_material_variants w).materials = w.materials ∧
    ∀ mats2 : Assets,
      create_material_variants
          { create_material_variants w with materials := mats2 }
        = { create_material_variants w with materials := mats2 } := by
  have hcmv : create_material_variants w
      = { w with meshes := [{ m with justAdded := false }] } := by
    unfold create_material_variants
    rw [hm]
    simp [cmvGo, ha, hv, hg]
  refine ⟨?_, ?_, ?_⟩
  · rw [hcmv]
  · rw [hcmv]
  · intro mats2
    rw [hcmv]
    apply cmv_all_old
    intro x hx
    simp only [List.mem_singleton] at hx
    subst hx
    rfl

/-- Witness for C2's amended theorem: the single-mesh world with the
missing material, then the material (handle 7) arriving in the store. -/
theorem create_material_variants_skip_witness :
    slowWorld.meshes = [⟨7, none, true⟩] ∧
    (⟨7, none, true⟩ : MeshEnt).justAdded = true ∧
    (⟨7, none, true⟩ : MeshEnt).variants = none ∧
    slowWorld.materials.get 7 = none ∧
    (create_material_variants slowWorld).meshes = [⟨7, none, false⟩] ∧
    (create_material_variants slowWorld).materials = slowWorld.materials ∧
    create_material_variants
        { create_material_variants slowWorld with
            materials := ⟨[(7, slowMaterial)], 8⟩ }
      = { create_material_variants slowWorld with
            materials := ⟨[(7, slowMaterial)], 8⟩ } := by
  have H := create_material_variants_skip_no_retry slowWorld ⟨7, none, true⟩
    rfl rfl rfl rfl
  exact ⟨rfl, rfl, rfl, rfl, H.1, H.2.1, H.2.2 ⟨[(7, slowMaterial)], 8⟩⟩

/-- C8: a mesh that appears with its material observable gets a
MaterialVariants component exactly once: the anisotropic handle is the
mesh's original material handle, the isotropic handle is a fresh id whose
stored material is the original with anisotropy strength 0, rotation 0 and
no anisotropy texture, all other fields unchanged; a second run of the
system changes nothing further. -/
theorem create_material_variants_attach (w : World) (m : MeshEnt)
    (mat : StandardMaterial)
    (hm : w.meshes = [m]) (ha : m.justAdded = true) (hv : m.variants = none)
    (hg : w.materials.get m.material = some mat) :
    (create_material_variants w).meshes =
      [{ m with justAdded := false,
                variants := some ⟨m.material, w.materials.nextId⟩ }] ∧
    (create_material_variants w).materials.get w.materials.nextId =
      some ⟨mat.base_color, 0, 0, none⟩ ∧
    create_material_variants (create_material_variants w)
      = create_material_variants w := by
  have hcmv : create_material_variants w
      = { w with
            materials :=
              ⟨(w.materials.nextId, isotropicCopy mat) :: w.materials.store,
               w.materials.nextId + 1⟩,
            meshes := [{ m with justAdded := false,
                                variants := some ⟨m.material, w.materials.nextId⟩ }] } := by
    unfold create_material_variants
    rw [hm]
    simp [cmvGo, ha, hv, hg, Assets.add]
  refine ⟨?_, ?_, ?_⟩
  · rw [hcmv]
  · rw [hcmv]
    unfold Assets.get
    rw [List.find?_cons_of_pos _ (by simp)]
    rfl
  · rw [hcmv]
    apply cmv_all_old
    intro x hx
    simp only [List.mem_singleton] at hx
    subst hx
    rfl

/-- Witness for C8 at the setup world: the sphere's mesh (material handle
0, the GRAY_300 anisotropic material) gets variants (0, 1), the stored
material 1 is the zeroed copy, and a second run is a no-op. -/
theorem create_material_variants_attach_witness :
    setupWorld.meshes = [⟨0, none, true⟩] ∧
    (⟨0, none, true⟩ : MeshEnt).justAdded = true ∧
    (⟨0, none, true⟩ : MeshEnt).variants = none ∧
    setupWorld.materials.get 0 = some sphereMaterial ∧
    ((create_material_variants setupWorld).meshes = [⟨0, some ⟨0, 1⟩, false⟩] ∧
     (create_material_variants setupWorld).materials.get 1 =
       some ⟨"GRAY_300", 0, 0, none⟩ ∧
     create_material_variants (create_material_variants setupWorld)
       = create_material_variants setupWorld) :=
  ⟨rfl, rfl, rfl, rfl,
   create_material_variants_attach setupWorld ⟨0, none, true⟩ sphereMaterial
     rfl rfl rfl rfl⟩

end Aniso
